import Mathlib

/-!
Shallow embedding of the diagnostic-chatwise-ui React components.

Each fetch-driven handler of the source is modelled as a pure function from
the component's local state (the React `useState` fields) and the observed
network outcome to the new state.  Browser built-ins that the code calls
(`JSON.parse`, `new URL`) are modelled as boolean-valued parameters, and the
JavaScript `||` defaulting idiom on strings (empty string is falsy) is made
explicit.  Requests the UI issues are reified as `Request` values (method,
url, body kind) built exactly as the source builds its `fetch` calls.
-/

namespace ChatwiseUI

/-- HTTP method of a request issued via `fetch`. -/
inductive Method where
  | GET
  | POST
  | PUT
  | DELETE
deriving DecidableEq, Repr

/-- Kind of body attached to a `fetch` call: none, a JSON string body, or a
multipart `FormData` body. -/
inductive BodyKind where
  | empty
  | json
  | formData
deriving DecidableEq, Repr

/-- Reified request issued by the UI. -/
structure Request where
  method : Method
  url : String
  body : BodyKind
deriving DecidableEq, Repr

/-- JavaScript `a || b` for a possibly-missing string `a`: a missing
(undefined/null) or empty string falls through to the default. -/
def jsStrOr (a : Option String) (b : String) : String :=
  match a with
  | some s => if s = "" then b else s
  | none => b

/-- JavaScript `a || b` where `a` is a string that may be empty. -/
def jsOrDefault (a b : String) : String :=
  if a = "" then b else a

/-- Whitespace characters stripped by `String.prototype.trim`. -/
def isJsWhitespace (ch : Char) : Bool :=
  ch = ' ' || ch = '\t' || ch = '\n' || ch = '\r'

/-- Model of `String.prototype.trim`: strip whitespace from both ends. -/
def jsTrim (s : String) : String :=
  String.mk (((s.data.dropWhile isJsWhitespace).reverse.dropWhile isJsWhitespace).reverse)

/-! ### UrlScraper (src/src/components/AgentConfig.tsx, second document, lines 349-474) -/

/-- Body of a scrape-status response as parsed by `response.json()` in
`fetchScrapeStatus`: the `status` field, optional `message` / `detail`
fields, and the optional `progress.chars_added` counter. -/
structure ScrapeStatusBody where
  status : String
  message : Option String
  detail : Option String
  chars_added : Option Nat
deriving DecidableEq, Repr

/-- Outcome of one `fetch` of `/agents/kbId/scrape-status` as observed by
`fetchScrapeStatus`: either the promise chain throws before the `ok` check
(network failure or `response.json()` rejection), or a response with its
`ok` flag, status code, and parsed body is obtained. -/
inductive ScrapeFetch where
  | fail (msg : String)
  | resp (ok : Bool) (code : Nat) (body : ScrapeStatusBody)
deriving DecidableEq, Repr

/-- Local state of the `UrlScraper` component (its `useState` fields). -/
structure ScraperState where
  url : String
  maxPages : Int
  isSubmitting : Bool
  error : Option String
  successMessage : Option String
  scrapeStatus : Option ScrapeStatusBody
  isPolling : Bool
deriving DecidableEq, Repr

/-- Transcription of `fetchScrapeStatus` (AgentConfig.tsx lines 359-393).
Returns the updated state together with the boolean the function returns
(`true` exactly when polling should continue). -/
def fetchScrapeStatus (st : ScraperState) (r : ScrapeFetch) : ScraperState × Bool :=
  match r with
  | .fail msg =>
      ({ st with error := some msg, isPolling := false }, false)
  | .resp ok code body =>
      if !ok then
        let msg := jsStrOr body.message
          (jsStrOr body.detail ("Failed to fetch status: " ++ toString code))
        ({ st with error := some msg, isPolling := false }, false)
      else
        let st1 := { st with scrapeStatus := some body }
        if body.status = "processing" then
          (st1, true)
        else
          let st2 := { st1 with isPolling := false }
          if body.status = "completed" then
            ({ st2 with successMessage := some ("Scraping completed! Added " ++
                toString (body.chars_added.getD 0) ++ " characters of content.") }, false)
          else if body.status = "failed" then
            ({ st2 with error := some "Scraping failed. Please try again." }, false)
          else
            (st2, false)

/-- Predicate on a fetch outcome: an `ok` response whose `status` field is
the string "processing". -/
def continuesPolling (r : ScrapeFetch) : Bool :=
  match r with
  | .resp true _ body => body.status = "processing"
  | _ => false

/-- Transcription of the polling `useEffect` (AgentConfig.tsx lines
396-417) run over a list of successive fetch outcomes.  `pollStatus` checks
`isPolling`, awaits `fetchScrapeStatus`, and only when it returned `true`
schedules the next `pollStatus` with a 2000 ms timeout.  The result is the
final state, the number of scrape-status requests issued, and the list of
timeout delays scheduled between consecutive requests. -/
def pollTrace (st : ScraperState) : List ScrapeFetch → ScraperState × Nat × List Nat
  | [] => (st, 0, [])
  | r :: rs =>
      if st.isPolling then
        let p := fetchScrapeStatus st r
        if p.2 then
          let q := pollTrace p.1 rs
          (q.1, q.2.1 + 1, 2000 :: q.2.2)
        else
          (p.1, 1, [])
      else
        (st, 0, [])

/-- Concrete `ok` response whose status is "processing". -/
def processingResp : ScrapeFetch :=
  .resp true 200 { status := "processing", message := none, detail := none, chars_added := none }

/-- Transcription of `isValidUrl` (AgentConfig.tsx lines 467-474), with the
browser `new URL` constructor modelled by the predicate `urlParses` (the
constructor throwing corresponds to `urlParses s = false`). -/
def isValidUrl (urlParses : String → Bool) (s : String) : Bool :=
  if urlParses s then
    s.startsWith "http://" || s.startsWith "https://"
  else
    false

/-- Transcription of the guard and request construction of `handleSubmit`
(AgentConfig.tsx lines 419-464, up to issuing the POST): when `kbId` or the
url is empty, the url is invalid, or `maxPages < 1`, an error message is
set and no request is issued; otherwise the POST to
`/agents/kbId/scrape-url` is issued. -/
def handleSubmit (urlParses : String → Bool) (backendUrl kbId : String)
    (st : ScraperState) : Option Request × ScraperState :=
  if kbId = "" || st.url = "" || !(isValidUrl urlParses st.url) || st.maxPages < 1 then
    (none,
     { st with
        error := some "Please enter a valid URL (starting with http:// or https://) and set max pages to at least 1.",
        successMessage := none })
  else
    (some { method := .POST, url := backendUrl ++ "/agents/" ++ kbId ++ "/scrape-url",
            body := .json },
     { st with isSubmitting := true, error := none, successMessage := none,
               scrapeStatus := none })

/-! ### KnowledgeBaseViewer (src/src/components/KnowledgeBaseViewer.tsx, lines 28-52) -/

/-- Item of knowledge-base content returned by GET /agents/kbId/content. -/
structure ContentItem where
  id : String
  document : String
deriving DecidableEq, Repr

/-- Outcome of the content fetch as observed by `fetchContent`: either the
promise chain throws outside the non-ok branch (network failure, or
`response.json()` rejecting on an ok response), or a response arrives.  For
a non-ok response the body is re-parsed with `.catch(() => (empty))`, so
only an optional `message` field survives (`errMessage = none` covers both
a missing field and an unparseable body); for an ok response the parsed
`content` list and `total_count` are available (`data.content || []` and
`data.total_count || 0` are modelled by the options). -/
inductive ContentFetch where
  | fail (msg : String)
  | resp (ok : Bool) (code : Nat) (errMessage : Option String)
      (content : Option (List ContentItem)) (totalCount : Option Nat)
deriving DecidableEq, Repr

/-- Local state of `KnowledgeBaseViewer` relevant to `fetchContent`. -/
structure KBViewerState where
  content : List ContentItem
  totalCount : Nat
  isLoading : Bool
  error : Option String
deriving DecidableEq, Repr

/-- Transcription of one complete run of `fetchContent`
(KnowledgeBaseViewer.tsx lines 28-52): it clears `error`, then on success
stores the list, on a non-ok response throws
`errorData.message || "HTTP error! status: " ++ code` and the catch block
sets the displayed error, and on any other failure the catch block sets the
displayed error from the thrown message. -/
def fetchContentRun (st : KBViewerState) (r : ContentFetch) : KBViewerState :=
  let st0 := { st with isLoading := true, error := none }
  match r with
  | .fail msg =>
      { st0 with error := some ("Failed to fetch knowledge base content: " ++ msg),
                 isLoading := false }
  | .resp ok code errMessage content totalCount =>
      if !ok then
        { st0 with
            error := some ("Failed to fetch knowledge base content: " ++
              jsStrOr errMessage ("HTTP error! status: " ++ toString code)),
            isLoading := false }
      else
        { st0 with content := content.getD [], totalCount := totalCount.getD 0,
                   isLoading := false }

/-! ### JSONUpload (src/unnamed/part_002, lines 12-116 and 164-167) -/

/-- Upload status of the JSONUpload widget. -/
inductive UploadStatus where
  | idle
  | uploading
  | success
  | error
deriving DecidableEq, Repr

/-- Status banner of the JSONUpload widget (`type` collapsed to a flag:
`isSuccess = true` for a success banner, `false` for an error banner). -/
structure StatusMessage where
  isSuccess : Bool
  text : String
deriving DecidableEq, Repr

/-- Local state of the `JSONUpload` component. -/
structure JSONUploadState where
  jsonData : String
  isValidJson : Bool
  uploadStatus : UploadStatus
  uploadMessage : Option StatusMessage
deriving DecidableEq, Repr

/-- Transcription of `handleJsonChange` (part_002 lines 49-66) with the
browser `JSON.parse` modelled by the predicate `jsonParses` (a throwing
parse corresponds to `jsonParses data = false`). -/
def handleJsonChange (jsonParses : String → Bool) (data : String)
    (st : JSONUploadState) : JSONUploadState :=
  let st1 := { st with jsonData := data, uploadMessage := none, uploadStatus := .idle }
  if jsTrim data = "" then
    { st1 with isValidJson := true }
  else
    { st1 with isValidJson := jsonParses data }

/-- Transcription of the Upload button `disabled` expression
(part_002 line 166). -/
def uploadButtonDisabled (st : JSONUploadState) : Bool :=
  !st.isValidJson || jsTrim st.jsonData = "" || st.uploadStatus = .uploading

/-- Outcome of the POST /agents/kbId/json request as observed by
`handleUpload`: a thrown error before the ok-check (network failure or
`response.json()` rejecting), or a response with its `ok` flag and the
optional `message` field of the parsed body. -/
inductive JSONUploadResult where
  | fail (msg : String)
  | resp (ok : Bool) (message : Option String)
deriving DecidableEq, Repr

/-- JavaScript `s.includes(pat)` for a non-empty pattern. -/
def jsIncludes (s pat : String) : Bool :=
  (s.splitOn pat).length ≠ 1

/-- Transcription of `handleUpload` (part_002 lines 68-116).  Returns the
final state, whether a POST request was issued, and whether
`fetchExistingJson` was called to refresh the existing-JSON list.  The
`finally` block consults the render-time `uploadStatus` captured by the
closure, which is `st.uploadStatus`. -/
def handleUpload (st : JSONUploadState) (r : JSONUploadResult) :
    JSONUploadState × Bool × Bool :=
  if !st.isValidJson || jsTrim st.jsonData = "" || st.uploadStatus = .uploading then
    if !st.isValidJson then
      ({ st with uploadMessage := some { isSuccess := false, text := "Input is not valid JSON." } },
       false, false)
    else if jsTrim st.jsonData = "" then
      ({ st with uploadMessage := some { isSuccess := false, text := "JSON input cannot be empty." } },
       false, false)
    else
      (st, false, false)
  else
    let st1 := { st with uploadStatus := .uploading, uploadMessage := none }
    let finallyStep := fun (s : JSONUploadState) =>
      if st.uploadStatus ≠ .success ∧ st.uploadStatus ≠ .error then
        { s with uploadStatus := .idle }
      else s
    match r with
    | .resp true message =>
        let banner : StatusMessage :=
          { isSuccess := true, text := jsStrOr message "JSON data uploaded successfully." }
        (finallyStep
          { st1 with uploadStatus := .success, uploadMessage := some banner,
                     jsonData := "" },
         true, true)
    | .resp false message =>
        let thrown := jsStrOr message "Failed to upload JSON data."
        let text := if jsIncludes thrown "valid JSON" then
            "Failed to upload: Invalid JSON format."
          else
            "Failed to upload: " ++ thrown
        (finallyStep
          { st1 with uploadStatus := .error,
                     uploadMessage := some { isSuccess := false, text := text } },
         true, false)
    | .fail msg =>
        let thrown := jsOrDefault msg "An unexpected error occurred."
        let text := if jsIncludes thrown "valid JSON" then
            "Failed to upload: Invalid JSON format."
          else
            "Failed to upload: " ++ thrown
        (finallyStep
          { st1 with uploadStatus := .error,
                     uploadMessage := some { isSuccess := false, text := text } },
         true, false)

/-! ### ChatInterface (src/src/components/ChatInterface.tsx)

The component issues asynchronous fetches whose completions re-enter the
event loop.  Requests are given identifiers; `aborted` records every
request whose `AbortController` has been aborted.  Delivering the outcome
of an aborted request runs the handler's `AbortError` branch (the browser
rejects the fetch promise with an `AbortError` once its controller is
aborted), and delivering a live request runs the success or failure branch
of the source. -/

/-- Sender of a chat message. -/
inductive Sender where
  | user
  | ai
deriving DecidableEq, Repr

/-- MessageType of ChatInterface.tsx line 11. -/
inductive MessageType where
  | answer
  | handoff
  | error
  | ai
  | user
deriving DecidableEq, Repr

/-- Chat message as held in the `messages` state (ChatInterface.tsx
lines 13-19). -/
structure Message where
  id : String
  sender : Sender
  text : String
  isLoading : Bool
  messageType : MessageType
deriving DecidableEq, Repr

/-- Type tag of a backend history item (ChatInterface.tsx lines 22-25). -/
inductive HistoryType where
  | human
  | ai
  | handoff
  | answer
deriving DecidableEq, Repr

/-- Backend history item. -/
structure HistoryItem where
  type : HistoryType
  content : String
deriving DecidableEq, Repr

/-- Local state of `ChatInterface` together with the fetch machinery: ids
of the in-flight history request and of the chat request held by
`abortControllerRef`, the set of aborted request ids, and a fresh-id
counter. -/
structure ChatState where
  messages : List Message
  userInput : String
  isLoading : Bool
  isHistoryLoading : Bool
  historyError : Option String
  isClearingHistory : Bool
  clearHistoryError : Option String
  historyReq : Option Nat
  chatReq : Option Nat
  aborted : List Nat
  nextId : Nat
deriving DecidableEq, Repr

/-- Welcome message built at lines 105-110 (and again at lines 313-318);
`now` stands for `Date.now()`. -/
def welcomeMessage (now : Nat) : Message :=
  { id := "ai-welcome-" ++ toString now, sender := .ai,
    text := "Hello! I'm your AI assistant. How can I help you today?",
    isLoading := false, messageType := .ai }

/-- Mapping of one backend history item to a `Message`
(ChatInterface.tsx lines 94-101). -/
def formatHistoryItem (kbId : String) (idx : Nat) (item : HistoryItem) : Message :=
  { id := "hist-" ++ kbId ++ "-" ++ toString idx,
    sender := if item.type = .human then .user else .ai,
    text := item.content,
    isLoading := false,
    messageType :=
      match item.type with
      | .human => .user
      | .handoff => .handoff
      | .answer => .answer
      | .ai => .ai }

/-- Mapping of the fetched history to the message list. -/
def formatHistory (kbId : String) (items : List HistoryItem) : List Message :=
  items.enum.map (fun p => formatHistoryItem kbId p.1 p.2)

/-- Transcription of the synchronous part of the `useEffect` run when the
selected agent changes (ChatInterface.tsx lines 57-143): the cleanup of the
previous effect run aborts that run's history fetch, then `loadHistory`
resets the view state, aborts any in-flight chat request held by
`abortControllerRef`, and starts the history fetch for the new agent
(no fetch is started when `kbId` is empty). -/
def selectAgentEffect (st : ChatState) (kbId : String) : ChatState :=
  let ab0 := match st.historyReq with
    | some r => r :: st.aborted
    | none => st.aborted
  let st0 := { st with aborted := ab0, historyReq := none }
  if kbId = "" then st0
  else
    let ab1 := match st0.chatReq with
      | some c => c :: st0.aborted
      | none => st0.aborted
    { st0 with
        isHistoryLoading := true, historyError := none, messages := [],
        userInput := "", isLoading := false,
        aborted := ab1, chatReq := none,
        historyReq := some st0.nextId, nextId := st0.nextId + 1 }

/-- Outcome of a history fetch once its promise settles without an abort:
the parsed `history` array, or a thrown error whose message is `msg`
(the non-ok branch throws "HTTP error! status: ..." and a network failure
rejects with its own message). -/
inductive HistoryResult where
  | ok (history : List HistoryItem)
  | err (msg : String)
deriving DecidableEq, Repr

/-- Transcription of the continuation of `loadHistory` (ChatInterface.tsx
lines 80-134) run when the fetch for request `reqId` settles.  An aborted
request rejects with `AbortError`, whose branch only logs; otherwise the
success branch stores the formatted history (or the welcome message when it
is empty) and the failure branch records `historyError` and replaces the
message list with an error message. -/
def deliverHistory (kbId : String) (reqId : Nat) (res : HistoryResult) (now : Nat)
    (st : ChatState) : ChatState :=
  if reqId ∈ st.aborted then
    { st with isHistoryLoading := false }
  else
    match res with
    | .ok history =>
        let formatted := formatHistory kbId history
        let msgs := if formatted.length = 0 then [welcomeMessage now] else formatted
        { st with messages := msgs, isHistoryLoading := false }
    | .err msg =>
        { st with
            historyError := some (jsOrDefault msg "Failed to load chat history."),
            messages := [{ id := "err-hist-" ++ toString now, sender := .ai,
                           text := "Error loading history: " ++ jsOrDefault msg "Unknown error",
                           isLoading := false, messageType := .error }],
            isHistoryLoading := false }

/-- Transcription of the synchronous part of `handleSendMessage`
(ChatInterface.tsx lines 145-195): guard on empty input or an in-flight
request, abort of any previous chat request, append of the user message and
the loading placeholder, and issue of the POST.  Returns the new state and,
when a request was issued, its id together with the placeholder message id. -/
def handleSendMessage (st : ChatState) (now : Nat) : ChatState × Option (Nat × String) :=
  let trimmed := jsTrim st.userInput
  if trimmed = "" || st.isLoading then (st, none)
  else
    let ab := match st.chatReq with
      | some c => c :: st.aborted
      | none => st.aborted
    let pid := "ai-loading-" ++ toString now
    let userMsg : Message :=
      { id := "user-" ++ toString now, sender := .user, text := trimmed,
        isLoading := false, messageType := .user }
    let placeholder : Message :=
      { id := pid, sender := .ai, text := "", isLoading := true, messageType := .ai }
    ({ st with
        messages := st.messages ++ [userMsg, placeholder],
        userInput := "", isLoading := true,
        aborted := ab, chatReq := some st.nextId, nextId := st.nextId + 1 },
     some (st.nextId, pid))

/-- Outcome of the chat POST once its promise settles without an abort: the
parsed response (`type` mapped to a `MessageType`, missing or falsy mapped
to `none`; `content` optional), or a thrown error whose message is `msg`. -/
inductive ChatResult where
  | ok (rtype : Option MessageType) (content : Option String)
  | err (msg : String)
deriving DecidableEq, Repr

/-- Transcription of the promise continuations of `handleSendMessage`
(ChatInterface.tsx lines 196-232) run when the chat request `reqId`
settles, with `placeholderId` the id captured by the closure.  An aborted
request rejects with `AbortError`: its catch branch changes no messages and
only the `finally` block runs.  Otherwise the placeholder is rewritten with
the response content or with an error text. -/
def deliverChat (reqId : Nat) (placeholderId : String) (res : ChatResult)
    (st : ChatState) : ChatState :=
  let finallyStep := fun (s : ChatState) => { s with isLoading := false, chatReq := none }
  if reqId ∈ st.aborted then
    finallyStep st
  else
    match res with
    | .ok rtype content =>
        finallyStep
          { st with messages := st.messages.map (fun m =>
              if m.id = placeholderId then
                { m with text := jsStrOr content "No answer provided",
                         isLoading := false, messageType := rtype.getD .ai }
              else m) }
    | .err msg =>
        finallyStep
          { st with messages := st.messages.map (fun m =>
              if m.id = placeholderId then
                { m with text := "Error: " ++ jsOrDefault msg "Failed to get response",
                         isLoading := false, messageType := .error }
              else m) }

/-- Outcome of the DELETE history request: success, or a thrown error with
message `msg`. -/
inductive ClearResult where
  | ok
  | err (msg : String)
deriving DecidableEq, Repr

/-- Transcription of `handleClearHistory` (ChatInterface.tsx lines
284-330): guard, confirmation dialog, DELETE request, and state updates.
Returns the new state and whether the DELETE request was issued. -/
def handleClearHistory (kbId : String) (st : ChatState) (confirmed : Bool)
    (res : ClearResult) (now : Nat) : ChatState × Bool :=
  if kbId = "" || st.isClearingHistory then (st, false)
  else
    let st1 := { st with isClearingHistory := true, clearHistoryError := none }
    if !confirmed then
      ({ st1 with isClearingHistory := false }, false)
    else
      match res with
      | .ok =>
          ({ st1 with messages := [welcomeMessage now], historyError := none,
                      isClearingHistory := false }, true)
      | .err msg =>
          ({ st1 with clearHistoryError := some (jsOrDefault msg "Failed to clear history."),
                      isClearingHistory := false }, true)

/-! ### AgentManager (src/unnamed/part_003, lines 71-99) -/

/-- Outcome of the DELETE /agents/kbId request as observed by
`handleDeleteKb`: a thrown error before the ok-check (network failure), or
a response with its `ok` flag, status code, and the optional `message`
field of the error body (re-parsed with `.catch(() => (empty))`). -/
inductive DeleteResult where
  | fail (msg : String)
  | resp (ok : Bool) (code : Nat) (message : Option String)
deriving DecidableEq, Repr

/-- Local state of `AgentManager` relevant to deletion. -/
structure AgentManagerState where
  error : Option String
  deletingKbId : Option String
deriving DecidableEq, Repr

/-- Transcription of `handleDeleteKb` (part_003 lines 71-99).  Returns the
new state, whether `refreshKbs` was called, and whether the selection was
cleared via `onKbSelected(null)`. -/
def handleDeleteKb (st : AgentManagerState) (selectedKbId : Option String)
    (kbIdToDelete : String) (r : DeleteResult) : AgentManagerState × Bool × Bool :=
  let st1 := { st with deletingKbId := some kbIdToDelete, error := none }
  match r with
  | .resp true _ _ =>
      ({ st1 with deletingKbId := none }, true, selectedKbId = some kbIdToDelete)
  | .resp false code message =>
      let thrown := jsStrOr message ("HTTP error! status: " ++ toString code)
      ({ st1 with error := some (jsOrDefault thrown "Failed to delete agent"),
                  deletingKbId := none }, false, false)
  | .fail msg =>
      ({ st1 with error := some (jsOrDefault msg "Failed to delete agent"),
                  deletingKbId := none }, false, false)

/-! ### AgentConfig (src/src/components/AgentConfig.tsx, first document,
lines 81-134)

Config objects are JavaScript objects whose keys may be absent, null, or
set: a field is modelled as `Option (Option α)` with the outer layer for
key presence (`hasOwnProperty`) and the inner layer for null. -/

/-- Agent configuration object held in `config` / `initialConfig`. -/
structure AgentConfigData where
  system_prompt : Option (Option String)
  max_iterations : Option (Option Int)
deriving DecidableEq, Repr

/-- Payload of the PUT /agents/kbId/config request: each key is present
exactly when the corresponding assignment ran. -/
structure AgentConfigPayload where
  system_prompt : Option (Option String)
  max_iterations : Option (Option Int)
deriving DecidableEq, Repr

/-- Transcription of the payload construction of `handleSaveChanges`
(AgentConfig.tsx lines 88-106): `system_prompt` is included when the key is
present and the value differs from the initial one; `max_iterations` is
included when the key is present and `config.max_iterations ?? null`
differs from `initialConfig.max_iterations ?? null`, the sent value being
the current one when it is a number `>= 1` and null otherwise.  The result
is `none` (no PUT issued) when the payload has no keys. -/
def handleSaveChanges (config initialConfig : AgentConfigData) :
    Option AgentConfigPayload :=
  let pSys : Option (Option String) :=
    if config.system_prompt.isSome ∧ config.system_prompt ≠ initialConfig.system_prompt
    then config.system_prompt else none
  let curMax : Option Int := config.max_iterations.join
  let initMax : Option Int := initialConfig.max_iterations.join
  let pMax : Option (Option Int) :=
    if config.max_iterations.isSome ∧ curMax ≠ initMax then
      some (match curMax with
            | some n => if 1 ≤ n then some n else none
            | none => none)
    else none
  if pSys = none ∧ pMax = none then none
  else some { system_prompt := pSys, max_iterations := pMax }

/-! ### Requests issued by the UI (claim C7)

Each definition transcribes the url and options of one `fetch` call of the
source. -/

/-- Model of the single-character check `backendUrl.endsWith('/')`: the
last character is a slash. -/
def endsWithSlash (s : String) : Bool :=
  match s.data.getLast? with
  | some c => c = '/'
  | none => false

/-- Trailing-slash stripping used by ChatInterface (lines 77, 178, 297):
`backendUrl.endsWith('/') ? backendUrl.slice(0, -1) : backendUrl`. -/
def cleanBackendUrl (backendUrl : String) : String :=
  if endsWithSlash backendUrl then String.mk backendUrl.data.dropLast else backendUrl

/-- GET /agents — `fetchKbs` (App.tsx line 50). -/
def fetchKbsRequest (base : String) : Request :=
  { method := .GET, url := base ++ "/agents", body := .empty }

/-- POST /agents — `handleCreateKb` (part_003 lines 48-52). -/
def createKbRequest (base : String) : Request :=
  { method := .POST, url := base ++ "/agents", body := .json }

/-- DELETE /agents/id — `handleDeleteKb` (part_003 lines 75-77). -/
def deleteKbRequest (base id : String) : Request :=
  { method := .DELETE, url := base ++ "/agents/" ++ id, body := .empty }

/-- GET /agents/id/content — `fetchContent` (KnowledgeBaseViewer.tsx line 38). -/
def fetchContentRequest (base id : String) : Request :=
  { method := .GET, url := base ++ "/agents/" ++ id ++ "/content", body := .empty }

/-- POST /agents/id/upload with FormData — `handleUpload` (FileUpload.tsx
lines 69-72). -/
def fileUploadRequest (base id : String) : Request :=
  { method := .POST, url := base ++ "/agents/" ++ id ++ "/upload", body := .formData }

/-- GET /agents/id/json — `fetchExistingJson` (part_002 line 29). -/
def fetchExistingJsonRequest (base id : String) : Request :=
  { method := .GET, url := base ++ "/agents/" ++ id ++ "/json", body := .empty }

/-- POST /agents/id/json — `handleUpload` (part_002 lines 83-89). -/
def jsonUploadRequest (base id : String) : Request :=
  { method := .POST, url := base ++ "/agents/" ++ id ++ "/json", body := .json }

/-- POST /agents/id/scrape-url — `handleSubmit` (AgentConfig.tsx lines
438-444, UrlScraper document). -/
def scrapeUrlRequest (base id : String) : Request :=
  { method := .POST, url := base ++ "/agents/" ++ id ++ "/scrape-url", body := .json }

/-- GET /agents/id/scrape-status — `fetchScrapeStatus` (AgentConfig.tsx
line 361, UrlScraper document). -/
def scrapeStatusRequest (base id : String) : Request :=
  { method := .GET, url := base ++ "/agents/" ++ id ++ "/scrape-status", body := .empty }

/-- GET /agents/id/config — `fetchConfig` (AgentConfig.tsx line 43). -/
def fetchConfigRequest (base id : String) : Request :=
  { method := .GET, url := base ++ "/agents/" ++ id ++ "/config", body := .empty }

/-- PUT /agents/id/config — `handleSaveChanges` (AgentConfig.tsx lines
111-117). -/
def saveConfigRequest (base id : String) : Request :=
  { method := .PUT, url := base ++ "/agents/" ++ id ++ "/config", body := .json }

/-- POST /agents/id/chat — `handleSendMessage` (ChatInterface.tsx lines
178-195). -/
def chatRequest (base id : String) : Request :=
  { method := .POST, url := cleanBackendUrl base ++ "/agents/" ++ id ++ "/chat",
    body := .json }

/-- GET /agents/id/history — `loadHistory` (ChatInterface.tsx lines 77-84). -/
def historyRequest (base id : String) : Request :=
  { method := .GET, url := cleanBackendUrl base ++ "/agents/" ++ id ++ "/history",
    body := .empty }

/-- DELETE /agents/id/history — `handleClearHistory` (ChatInterface.tsx
lines 297-303). -/
def clearHistoryRequest (base id : String) : Request :=
  { method := .DELETE, url := cleanBackendUrl base ++ "/agents/" ++ id ++ "/history",
    body := .empty }

/-- GET /conversations — `fetchConversations` (HumanAgentDesk.tsx line 60). -/
def conversationsRequest (base : String) : Request :=
  { method := .GET, url := base ++ "/conversations", body := .empty }

/-- POST /agents/id/human-chat — `handleSendResponse` (HumanAgentDesk.tsx
lines 129-146; the `endpoint` variable is always the string "human-chat"). -/
def humanChatRequest (base id : String) : Request :=
  { method := .POST, url := base ++ "/agents/" ++ id ++ "/human-chat", body := .json }

/-- POST /agents/id/cleanup — `handleCleanupKb` (KnowledgeBaseViewer.tsx
lines 79-82; the fetch passes only `method: 'POST'`, no body). -/
def cleanupKbRequest (base id : String) : Request :=
  { method := .POST, url := base ++ "/agents/" ++ id ++ "/cleanup", body := .empty }

/-- POST /agents/id/human-knowledge — `handleSaveToKb` (AddKbDrawer, second
document of FileUpload.tsx, lines 267-273; JSON body with
`knowledge_text`). -/
def humanKnowledgeRequest (base id : String) : Request :=
  { method := .POST, url := base ++ "/agents/" ++ id ++ "/human-knowledge", body := .json }

/-- Every request the UI issues: one entry per `fetch` call site of the
source (App, AgentManager, KnowledgeBaseViewer, FileUpload, JSONUpload,
UrlScraper, AgentConfig, ChatInterface, HumanAgentDesk, AddKbDrawer). -/
def uiRequests (base id : String) : List Request :=
  [fetchKbsRequest base, createKbRequest base, deleteKbRequest base id,
   fetchContentRequest base id, fileUploadRequest base id,
   fetchExistingJsonRequest base id, jsonUploadRequest base id,
   scrapeUrlRequest base id, scrapeStatusRequest base id,
   fetchConfigRequest base id, saveConfigRequest base id,
   chatRequest base id, historyRequest base id, clearHistoryRequest base id,
   conversationsRequest base, humanChatRequest base id,
   cleanupKbRequest base id, humanKnowledgeRequest base id]

/-- Modelled from the claim's words: the REST surface the claim enumerates
(GET/POST /agents, DELETE /agents/id; GET /agents/id/content; POST
/agents/id/upload with multipart FormData; GET/POST /agents/id/json; POST
/agents/id/scrape-url and GET /agents/id/scrape-status; GET/PUT
/agents/id/config; POST /agents/id/chat and GET/DELETE /agents/id/history;
GET /conversations and POST /agents/id/human-chat), against the
configurable backend base URL (normalized by the chat widget's
trailing-slash stripping where the source applies it). -/
def documentedSurface (base id : String) : List Request :=
  [⟨.GET, base ++ "/agents", .empty⟩,
   ⟨.POST, base ++ "/agents", .json⟩,
   ⟨.DELETE, base ++ "/agents/" ++ id, .empty⟩,
   ⟨.GET, base ++ "/agents/" ++ id ++ "/content", .empty⟩,
   ⟨.POST, base ++ "/agents/" ++ id ++ "/upload", .formData⟩,
   ⟨.GET, base ++ "/agents/" ++ id ++ "/json", .empty⟩,
   ⟨.POST, base ++ "/agents/" ++ id ++ "/json", .json⟩,
   ⟨.POST, base ++ "/agents/" ++ id ++ "/scrape-url", .json⟩,
   ⟨.GET, base ++ "/agents/" ++ id ++ "/scrape-status", .empty⟩,
   ⟨.GET, base ++ "/agents/" ++ id ++ "/config", .empty⟩,
   ⟨.PUT, base ++ "/agents/" ++ id ++ "/config", .json⟩,
   ⟨.POST, cleanBackendUrl base ++ "/agents/" ++ id ++ "/chat", .json⟩,
   ⟨.GET, cleanBackendUrl base ++ "/agents/" ++ id ++ "/history", .empty⟩,
   ⟨.DELETE, cleanBackendUrl base ++ "/agents/" ++ id ++ "/history", .empty⟩,
   ⟨.GET, base ++ "/conversations", .empty⟩,
   ⟨.POST, base ++ "/agents/" ++ id ++ "/human-chat", .json⟩]

/-! ### Sample states used by the concrete witnesses -/

/-- Concrete ChatInterface state with one in-flight history request (id 0)
and one in-flight chat request (id 1). -/
def sampleChatState : ChatState :=
  { messages := [], userInput := "", isLoading := true, isHistoryLoading := true,
    historyError := none, isClearingHistory := false, clearHistoryError := none,
    historyReq := some 0, chatReq := some 1, aborted := [], nextId := 2 }

/-- Concrete ChatInterface state with no in-flight request and two chat
messages. -/
def sampleIdleChatState : ChatState :=
  { messages := [welcomeMessage 7], userInput := "", isLoading := false,
    isHistoryLoading := false, historyError := none, isClearingHistory := false,
    clearHistoryError := none, historyReq := none, chatReq := none,
    aborted := [], nextId := 2 }

/-- Concrete ChatInterface state whose request 0 has been aborted. -/
def sampleAbortedChatState : ChatState :=
  { messages := [welcomeMessage 7], userInput := "", isLoading := false,
    isHistoryLoading := false, historyError := none, isClearingHistory := false,
    clearHistoryError := none, historyReq := none, chatReq := none,
    aborted := [0], nextId := 2 }

/-- Concrete JSONUpload state holding valid, non-empty JSON and no upload
in progress. -/
def sampleJsonState : JSONUploadState :=
  { jsonData := "[1]", isValidJson := true, uploadStatus := .idle,
    uploadMessage := none }

/-- Concrete config pair: `system_prompt` unchanged, `max_iterations`
changed to the invalid value 0. -/
def sampleConfigCurrent : AgentConfigData :=
  { system_prompt := some (some "a"), max_iterations := some (some 0) }

/-- Concrete initially-fetched config. -/
def sampleConfigInitial : AgentConfigData :=
  { system_prompt := some (some "a"), max_iterations := some (some 3) }

/-- Payload produced for the sample config pair. -/
def sampleConfigPayload : AgentConfigPayload :=
  { system_prompt := none, max_iterations := some none }

end ChatwiseUI

namespace ChatwiseUI

/-! ## Theorems -/

/-- Helper: the boolean returned by one poll step is `true` exactly on an
ok response whose status is "processing". -/
theorem fetchScrapeStatus_snd (st : ScraperState) (r : ScrapeFetch) :
    (fetchScrapeStatus st r).2 = continuesPolling r := by
  cases r with
  | fail msg => rfl
  | resp ok code body =>
    cases ok with
    | false => rfl
    | true =>
      by_cases h : body.status = "processing"
      · simp [fetchScrapeStatus, continuesPolling, h]
      · simp only [fetchScrapeStatus, continuesPolling, Bool.not_true]
        split_ifs <;> simp_all

/-- Helper: after one poll step, polling is still active exactly when it
was active before and the step decided to continue. -/
theorem fetchScrapeStatus_isPolling (st : ScraperState) (r : ScrapeFetch) :
    (fetchScrapeStatus st r).1.isPolling = ((fetchScrapeStatus st r).2 && st.isPolling) := by
  cases r with
  | fail msg => simp [fetchScrapeStatus]
  | resp ok code body =>
    cases ok with
    | false => simp [fetchScrapeStatus]
    | true =>
      by_cases h : body.status = "processing"
      · simp [fetchScrapeStatus, h]
      · simp only [fetchScrapeStatus, Bool.not_true]
        split_ifs <;> simp_all

/-- Helper: every delay scheduled by the polling loop is 2000 ms. -/
theorem pollTrace_delays (st : ScraperState) (rs : List ScrapeFetch) :
    ((pollTrace st rs).2.2).all (fun d => d == 2000) = true := by
  induction rs generalizing st with
  | nil => rfl
  | cons r rs ih =>
    cases hp : st.isPolling with
    | false => simp [pollTrace, hp]
    | true =>
      cases hc : (fetchScrapeStatus st r).2 with
      | false => simp [pollTrace, hp, hc]
      | true => simp [pollTrace, hp, hc, ih]

/-- Helper: a run of n consecutive "processing" responses issues n
requests; there is no retry ceiling. -/
theorem pollTrace_replicate_processing (st : ScraperState) (n : Nat) :
    (pollTrace st (List.replicate n processingResp)).2.1 =
      (if st.isPolling then n else 0) := by
  induction n generalizing st with
  | zero => cases hp : st.isPolling <;> simp [pollTrace]
  | succ n ih =>
    cases hp : st.isPolling with
    | false => simp [pollTrace, List.replicate, hp]
    | true =>
      have hc : (fetchScrapeStatus st processingResp).2 = true := by
        simp [fetchScrapeStatus, processingResp]
      have hip : (fetchScrapeStatus st processingResp).1.isPolling = true := by
        simp [fetchScrapeStatus, processingResp, hp]
      simp [pollTrace, List.replicate, hp, hc, ih, hip]

/-- C1: in the URL-scraper polling loop, each scrape-status step schedules
the next attempt only after the awaited `fetchScrapeStatus` returns, always
with a 2000 ms delay (all scheduled delays equal 2000: no backoff or
jitter); polling continues exactly when the returned status is
"processing"; whenever the step decides not to continue (status left
"processing" or the request failed) `isPolling` is false afterwards; and a
run of n consecutive "processing" responses issues all n requests (no
retry ceiling). -/
theorem urlscraper_polling_fixed_interval :
    ∀ (st : ScraperState) (r : ScrapeFetch) (rs : List ScrapeFetch) (n : Nat),
      (fetchScrapeStatus st r).2 = continuesPolling r ∧
      (fetchScrapeStatus st r).1.isPolling = ((fetchScrapeStatus st r).2 && st.isPolling) ∧
      ((pollTrace st rs).2.2).all (fun d => d == 2000) = true ∧
      (pollTrace st (List.replicate n processingResp)).2.1 =
        (if st.isPolling then n else 0) := by
  intro st r rs n
  exact ⟨fetchScrapeStatus_snd st r, fetchScrapeStatus_isPolling st r,
         pollTrace_delays st rs, pollTrace_replicate_processing st n⟩

/-- C4: a non-success HTTP response in the cited widget fetches sets the
component's displayed error state, with the message taken from the response
body when one is present and a generic status fallback otherwise, and a
network or parse failure likewise sets the error state from the thrown
message. -/
theorem widget_http_errors_displayed :
    ∀ (st : KBViewerState) (code : Nat) (m : Option String)
      (c : Option (List ContentItem)) (t : Option Nat) (msg : String)
      (sst : ScraperState) (body : ScrapeStatusBody),
      (fetchContentRun st (.resp false code m c t)).error =
        some ("Failed to fetch knowledge base content: " ++
          jsStrOr m ("HTTP error! status: " ++ toString code)) ∧
      (fetchContentRun st (.fail msg)).error =
        some ("Failed to fetch knowledge base content: " ++ msg) ∧
      (fetchScrapeStatus sst (.resp false code body)).1.error =
        some (jsStrOr body.message
          (jsStrOr body.detail ("Failed to fetch status: " ++ toString code))) ∧
      (fetchScrapeStatus sst (.fail msg)).1.error = some msg ∧
      (fetchScrapeStatus sst (.resp false code body)).1.isPolling = false := by
  intro st code m c t msg sst body
  refine ⟨rfl, rfl, ?_, rfl, ?_⟩ <;> simp [fetchScrapeStatus]

/-- C6: submitting the scrape form issues the POST to
/agents/kbId/scrape-url exactly when the agent id and url are non-empty,
`isValidUrl` accepts the url, and maxPages is at least 1; otherwise no
request is issued and the validation error message is shown; and
`isValidUrl` holds exactly when the string parses as a URL and starts with
"http://" or "https://". -/
theorem urlscraper_submit_validation :
    ∀ (urlParses : String → Bool) (base kbId : String) (st : ScraperState) (s : String),
      isValidUrl urlParses s =
        (urlParses s && (s.startsWith "http://" || s.startsWith "https://")) ∧
      ((handleSubmit urlParses base kbId st).1.isSome = true ↔
        (kbId ≠ "" ∧ st.url ≠ "" ∧ isValidUrl urlParses st.url = true ∧ 1 ≤ st.maxPages)) ∧
      ((handleSubmit urlParses base kbId st).1 =
        if kbId = "" || st.url = "" || !(isValidUrl urlParses st.url) || st.maxPages < 1
        then none else some (scrapeUrlRequest base kbId)) ∧
      ((handleSubmit urlParses base kbId st).2.error =
        if kbId = "" || st.url = "" || !(isValidUrl urlParses st.url) || st.maxPages < 1
        then some "Please enter a valid URL (starting with http:// or https://) and set max pages to at least 1."
        else none) := by
  intro urlParses base kbId st s
  refine ⟨?_, ?_, ?_, ?_⟩
  · by_cases h : urlParses s = true <;> simp [isValidUrl, h]
  · simp only [handleSubmit]
    split_ifs with h
    · simp only [Option.isSome_none]
      constructor
      · intro hfalse
        exact absurd hfalse (by simp)
      · intro ⟨h1, h2, h3, h4⟩
        simp only [Bool.or_eq_true, decide_eq_true_eq, Bool.not_eq_true'] at h
        rcases h with ((h | h) | h) | h
        · exact (h1 h).elim
        · exact (h2 h).elim
        · rw [h3] at h; exact absurd h (by simp)
        · omega
    · simp only [Option.isSome_some, true_iff]
      simp only [Bool.or_eq_true, decide_eq_true_eq, Bool.not_eq_true'] at h
      push_neg at h
      obtain ⟨⟨⟨h1, h2⟩, h3⟩, h4⟩ := h
      refine ⟨h1, h2, ?_, by omega⟩
      cases hv : isValidUrl urlParses st.url
      · exact absurd hv h3
      · rfl
  · simp only [handleSubmit, scrapeUrlRequest]
    split_ifs <;> rfl
  · simp only [handleSubmit]
    split_ifs <;> rfl

/-- Helper: when the disabled condition holds, `handleUpload` issues no
request, triggers no refetch, and keeps the textarea content. -/
theorem handleUpload_blocked (st : JSONUploadState) (r : JSONUploadResult)
    (h : uploadButtonDisabled st = true) :
    (handleUpload st r).2.1 = false ∧ (handleUpload st r).2.2 = false ∧
    (handleUpload st r).1.jsonData = st.jsonData := by
  unfold uploadButtonDisabled at h
  unfold handleUpload
  rw [if_pos h]
  split_ifs <;> exact ⟨rfl, rfl, rfl⟩

/-- Helper: when the disabled condition fails, `handleUpload` issues the
request; it refetches exactly on a successful response, clearing the
textarea there, and on any failure sets an error banner and does not
refetch. -/
theorem handleUpload_issued (st : JSONUploadState) (r : JSONUploadResult)
    (h : uploadButtonDisabled st = false) :
    (handleUpload st r).2.1 = true ∧
    (∀ m, (handleUpload st (.resp true m)).2.2 = true ∧
          (handleUpload st (.resp true m)).1.jsonData = "") ∧
    (∀ m, (handleUpload st (.resp false m)).2.2 = false ∧
          (handleUpload st (.resp false m)).1.uploadMessage.map StatusMessage.isSuccess =
            some false) ∧
    (∀ m, (handleUpload st (.fail m)).2.2 = false ∧
          (handleUpload st (.fail m)).1.uploadMessage.map StatusMessage.isSuccess =
            some false) := by
  unfold uploadButtonDisabled at h
  have hn : ¬((!st.isValidJson || jsTrim st.jsonData = "" ||
      st.uploadStatus = UploadStatus.uploading) = true) := by
    simp only [h]
    exact Bool.false_ne_true
  unfold handleUpload
  simp only [if_neg hn]
  refine ⟨?_, ?_, ?_, ?_⟩
  · cases r with
    | fail msg => rfl
    | resp ok message => cases ok <;> rfl
  · intro m
    constructor
    · simp
    · dsimp only
      split_ifs <;> rfl
  · intro m
    constructor
    · simp
    · dsimp only
      split_ifs <;> rfl
  · intro m
    constructor
    · simp
    · dsimp only
      split_ifs <;> rfl

/-- C5: the JSONUpload Upload button is disabled exactly when the trimmed
input is empty, the input is not held to be valid JSON, or an upload is in
progress; `handleUpload` issues a request exactly when the button is not
disabled; and after editing the textarea to content `data`, the button is
disabled exactly when `data` trims to empty or does not parse as JSON (in
particular an empty textarea always disables the button). -/
theorem json_upload_disabled_gating :
    ∀ (st : JSONUploadState) (r : JSONUploadResult) (jsonParses : String → Bool)
      (data : String),
      (uploadButtonDisabled st = true ↔
        (jsTrim st.jsonData = "" ∨ st.isValidJson = false ∨ st.uploadStatus = .uploading)) ∧
      (handleUpload st r).2.1 = !(uploadButtonDisabled st) ∧
      uploadButtonDisabled (handleJsonChange jsonParses data st) =
        (!(jsonParses data) || decide (jsTrim data = "")) := by
  intro st r jsonParses data
  refine ⟨?_, ?_, ?_⟩
  · simp only [uploadButtonDisabled, Bool.or_eq_true, Bool.not_eq_true',
      decide_eq_true_eq]
    tauto
  · cases hd : uploadButtonDisabled st with
    | true => simp [(handleUpload_blocked st r hd).1]
    | false => simp [(handleUpload_issued st r hd).1]
  · by_cases ht : jsTrim data = ""
    · simp [handleJsonChange, uploadButtonDisabled, ht]
    · simp [handleJsonChange, uploadButtonDisabled, ht]

/-- C8: after a successful mutation the widget re-fetches the affected
list: a successful JSON upload clears the textarea and triggers
`fetchExistingJson`, and a successful agent delete triggers `refreshKbs`;
on a failed mutation no re-fetch is triggered and an error banner is set
instead. -/
theorem mutation_list_refetch :
    ∀ (st : JSONUploadState) (m dm : Option String) (fmsg dmsg : String)
      (ast : AgentManagerState) (sel : Option String) (id : String) (code : Nat),
      (handleUpload st (.resp true m)).2.2 = !(uploadButtonDisabled st) ∧
      (handleUpload st (.resp true m)).1.jsonData =
        (if uploadButtonDisabled st then st.jsonData else "") ∧
      (handleUpload st (.resp false m)).2.2 = false ∧
      (handleUpload st (.fail fmsg)).2.2 = false ∧
      (uploadButtonDisabled st = false →
        (handleUpload st (.resp false m)).1.uploadMessage.map StatusMessage.isSuccess =
          some false ∧
        (handleUpload st (.fail fmsg)).1.uploadMessage.map StatusMessage.isSuccess =
          some false) ∧
      (handleDeleteKb ast sel id (.resp true code dm)).2.1 = true ∧
      (handleDeleteKb ast sel id (.resp false code dm)).2.1 = false ∧
      (handleDeleteKb ast sel id (.resp false code dm)).1.error.isSome = true ∧
      (handleDeleteKb ast sel id (.fail dmsg)).2.1 = false ∧
      (handleDeleteKb ast sel id (.fail dmsg)).1.error.isSome = true := by
  intro st m dm fmsg dmsg ast sel id code
  refine ⟨?_, ?_, ?_, ?_, ?_, rfl, rfl, rfl, rfl, rfl⟩
  · cases hd : uploadButtonDisabled st with
    | true => simp [(handleUpload_blocked st (.resp true m) hd).2.1]
    | false => simp [((handleUpload_issued st (.resp true m) hd).2.1 m).1]
  · cases hd : uploadButtonDisabled st with
    | true => simp [(handleUpload_blocked st (.resp true m) hd).2.2]
    | false => simp [((handleUpload_issued st (.resp true m) hd).2.1 m).2]
  · cases hd : uploadButtonDisabled st with
    | true => exact (handleUpload_blocked st (.resp false m) hd).2.1
    | false => exact ((handleUpload_issued st (.resp false m) hd).2.2.1 m).1
  · cases hd : uploadButtonDisabled st with
    | true => exact (handleUpload_blocked st (.fail fmsg) hd).2.1
    | false => exact ((handleUpload_issued st (.fail fmsg) hd).2.2.2 fmsg).1
  · intro hd
    exact ⟨((handleUpload_issued st (.resp false m) hd).2.2.1 m).2,
           ((handleUpload_issued st (.fail fmsg) hd).2.2.2 fmsg).2⟩

/-- C7 counterexample: the claim's enumerated surface does not cover every
request the UI issues: the cleanup request POST /agents/kb1/cleanup is
issued by the UI (KnowledgeBaseViewer.handleCleanupKb) but is not among
the sixteen documented entries; likewise POST /agents/kb1/human-knowledge
(AddKbDrawer.handleSaveToKb). -/
theorem ui_rest_surface_counterexample :
    cleanupKbRequest "http://localhost:8000" "kb1" ∈
      uiRequests "http://localhost:8000" "kb1" ∧
    cleanupKbRequest "http://localhost:8000" "kb1" ∉
      documentedSurface "http://localhost:8000" "kb1" ∧
    humanKnowledgeRequest "http://localhost:8000" "kb1" ∈
      uiRequests "http://localhost:8000" "kb1" ∧
    humanKnowledgeRequest "http://localhost:8000" "kb1" ∉
      documentedSurface "http://localhost:8000" "kb1" := by
  refine ⟨?_, ?_, ?_, ?_⟩ <;> decide

/-- C7 (amended): every request the UI issues targets the documented REST
surface under the configurable backend base URL with the stated method and
body kind — GET/POST /agents and DELETE /agents/id; GET /agents/id/content;
POST /agents/id/upload with multipart FormData; GET/POST /agents/id/json;
POST /agents/id/scrape-url and GET /agents/id/scrape-status; GET/PUT
/agents/id/config; POST /agents/id/chat and GET/DELETE /agents/id/history;
GET /conversations and POST /agents/id/human-chat — EXTENDED with the two
endpoints the claim's enumeration omits: POST /agents/id/cleanup
(knowledge cleanup) and POST /agents/id/human-knowledge (add-knowledge
drawer), both also under the same base URL. -/
theorem ui_rest_surface_amended :
    ∀ base id : String,
      uiRequests base id =
        documentedSurface base id ++
          [⟨.POST, base ++ "/agents/" ++ id ++ "/cleanup", .empty⟩,
           ⟨.POST, base ++ "/agents/" ++ id ++ "/human-knowledge", .json⟩] := by
  intro base id
  rfl

/-- Helper: an agent switch marks the previous in-flight history request as
aborted (the effect cleanup aborts its controller). -/
theorem selectAgentEffect_aborts_history (st : ChatState) (kbId : String) (r : Nat)
    (h : st.historyReq = some r) : r ∈ (selectAgentEffect st kbId).aborted := by
  unfold selectAgentEffect
  rw [h]
  by_cases hk : kbId = ""
  · simp [hk]
  · simp only [if_neg hk]
    cases st.chatReq <;> simp

/-- Helper: an agent switch to a non-empty agent id marks the in-flight
chat request as aborted (`loadHistory` aborts `abortControllerRef`). -/
theorem selectAgentEffect_aborts_chat (st : ChatState) (kbId : String) (c : Nat)
    (h : st.chatReq = some c) (hk : kbId ≠ "") :
    c ∈ (selectAgentEffect st kbId).aborted := by
  unfold selectAgentEffect
  simp only [if_neg hk]
  rw [h]
  cases st.historyReq <;> simp

/-- Helper: delivering the outcome of an aborted history fetch changes
neither the message list nor the history error. -/
theorem deliverHistory_aborted (kbId : String) (reqId : Nat) (res : HistoryResult)
    (now : Nat) (st : ChatState) (h : reqId ∈ st.aborted) :
    (deliverHistory kbId reqId res now st).messages = st.messages ∧
    (deliverHistory kbId reqId res now st).historyError = st.historyError := by
  unfold deliverHistory
  rw [if_pos h]
  exact ⟨rfl, rfl⟩

/-- Helper: delivering the outcome of an aborted chat request changes no
message. -/
theorem deliverChat_aborted (reqId : Nat) (pid : String) (res : ChatResult)
    (st : ChatState) (h : reqId ∈ st.aborted) :
    (deliverChat reqId pid res st).messages = st.messages := by
  unfold deliverChat
  rw [if_pos h]

/-- C2: when the selected agent changes to `kbId`, the effect cleanup
aborts the in-flight history fetch of the previous agent and `loadHistory`
aborts any in-flight chat request, so delivering either stale response
afterwards updates neither the message list nor the history error. -/
theorem agent_switch_aborts_stale_requests (st : ChatState) (kbId oldKb : String)
    (r c : Nat) (res : HistoryResult) (cres : ChatResult) (pid : String) (now : Nat)
    (hkb : kbId ≠ "") :
    (st.historyReq = some r → r ∈ (selectAgentEffect st kbId).aborted) ∧
    (st.chatReq = some c → c ∈ (selectAgentEffect st kbId).aborted) ∧
    (st.historyReq = some r →
      (deliverHistory oldKb r res now (selectAgentEffect st kbId)).messages =
        (selectAgentEffect st kbId).messages ∧
      (deliverHistory oldKb r res now (selectAgentEffect st kbId)).historyError =
        (selectAgentEffect st kbId).historyError) ∧
    (st.chatReq = some c →
      (deliverChat c pid cres (selectAgentEffect st kbId)).messages =
        (selectAgentEffect st kbId).messages) := by
  refine ⟨fun h => selectAgentEffect_aborts_history st kbId r h,
          fun h => selectAgentEffect_aborts_chat st kbId c h hkb,
          fun h => deliverHistory_aborted oldKb r res now _
            (selectAgentEffect_aborts_history st kbId r h),
          fun h => deliverChat_aborted c pid cres _
            (selectAgentEffect_aborts_chat st kbId c h hkb)⟩

/-- C2 witness: a concrete agent switch with history request 0 and chat
request 1 in flight. -/
theorem agent_switch_aborts_stale_requests_witness :
    0 ∈ (selectAgentEffect sampleChatState "kb2").aborted ∧
    1 ∈ (selectAgentEffect sampleChatState "kb2").aborted ∧
    (deliverHistory "kb1" 0 (.ok []) 5 (selectAgentEffect sampleChatState "kb2")).messages =
      (selectAgentEffect sampleChatState "kb2").messages ∧
    (deliverChat 1 "p" (.ok none none) (selectAgentEffect sampleChatState "kb2")).messages =
      (selectAgentEffect sampleChatState "kb2").messages := by
  have h := agent_switch_aborts_stale_requests sampleChatState "kb2" "kb1" 0 1
    (.ok []) (.ok none none) "p" 5 (by decide)
  exact ⟨h.1 rfl, h.2.1 rfl, (h.2.2.1 rfl).1, h.2.2.2 rfl⟩

/-- C3: delivering the outcome of an aborted request (history fetch or
chat POST) sets no error state and changes no message, while a non-aborted
failure sets the history error and an error message, or rewrites the chat
placeholder into an error message. -/
theorem aborted_requests_silent (st : ChatState) (kbId pid : String) (reqId : Nat)
    (res : HistoryResult) (cres : ChatResult) (m : String) (now : Nat) :
    (reqId ∈ st.aborted →
      (deliverHistory kbId reqId res now st).historyError = st.historyError ∧
      (deliverHistory kbId reqId res now st).messages = st.messages ∧
      (deliverChat reqId pid cres st).messages = st.messages) ∧
    (reqId ∉ st.aborted →
      (deliverHistory kbId reqId (.err m) now st).historyError.isSome = true ∧
      (deliverHistory kbId reqId (.err m) now st).messages =
        [{ id := "err-hist-" ++ toString now, sender := .ai,
           text := "Error loading history: " ++ jsOrDefault m "Unknown error",
           isLoading := false, messageType := .error }] ∧
      (deliverChat reqId pid (.err m) st).messages =
        st.messages.map (fun msg =>
          if msg.id = pid then
            { msg with text := "Error: " ++ jsOrDefault m "Failed to get response",
                       isLoading := false, messageType := .error }
          else msg)) := by
  constructor
  · intro h
    have h1 := deliverHistory_aborted kbId reqId res now st h
    exact ⟨h1.2, h1.1, deliverChat_aborted reqId pid cres st h⟩
  · intro h
    unfold deliverHistory deliverChat
    rw [if_neg h, if_neg h]
    exact ⟨rfl, rfl, rfl⟩

/-- C3 witness: a concrete aborted delivery and a concrete failed
delivery. -/
theorem aborted_requests_silent_witness :
    (deliverHistory "kb1" 0 (.err "boom") 9 sampleAbortedChatState).historyError =
      none ∧
    (deliverHistory "kb1" 0 (.err "boom") 9 sampleIdleChatState).historyError.isSome =
      true := by
  have ha := aborted_requests_silent sampleAbortedChatState
    "kb1" "p" 0 (.err "boom") (.err "boom") "boom" 9
  have hb := aborted_requests_silent sampleIdleChatState
    "kb1" "p" 0 (.err "boom") (.err "boom") "boom" 9
  constructor
  · exact ((ha.1 (by decide)).1).trans rfl
  · exact (hb.2 (by decide)).1

/-- C9: clearing the chat history is atomic on the message list: on a
successful DELETE the message list becomes exactly the welcome message and
the history error is reset, on a failed DELETE the message list and the
history error are unchanged and only the clear-history error is set, and
when the user declines the confirmation no request is issued and the
message list is unchanged. -/
theorem clear_history_atomic (kbId : String) (st : ChatState) (res : ClearResult)
    (m : String) (now : Nat) (hkb : kbId ≠ "") (hcl : st.isClearingHistory = false) :
    ((handleClearHistory kbId st true .ok now).1.messages = [welcomeMessage now] ∧
     (handleClearHistory kbId st true .ok now).1.historyError = none ∧
     (handleClearHistory kbId st true .ok now).1.clearHistoryError = none ∧
     (handleClearHistory kbId st true .ok now).2 = true) ∧
    ((handleClearHistory kbId st true (.err m) now).1.messages = st.messages ∧
     (handleClearHistory kbId st true (.err m) now).1.historyError = st.historyError ∧
     (handleClearHistory kbId st true (.err m) now).1.clearHistoryError =
       some (jsOrDefault m "Failed to clear history.") ∧
     (handleClearHistory kbId st true (.err m) now).2 = true) ∧
    ((handleClearHistory kbId st false res now).1.messages = st.messages ∧
     (handleClearHistory kbId st false res now).1.historyError = st.historyError ∧
     (handleClearHistory kbId st false res now).1.clearHistoryError = none ∧
     (handleClearHistory kbId st false res now).2 = false) := by
  have hg : ¬((kbId = "" || st.isClearingHistory) = true) := by
    simp [hkb, hcl]
  unfold handleClearHistory
  rw [if_neg hg, if_neg hg, if_neg hg]
  exact ⟨⟨rfl, rfl, rfl, rfl⟩, ⟨rfl, rfl, rfl, rfl⟩, ⟨rfl, rfl, rfl, rfl⟩⟩

/-- C9 witness: a concrete successful clear, failed clear, and declined
confirmation. -/
theorem clear_history_atomic_witness :
    (handleClearHistory "kb1" sampleIdleChatState true .ok 11).1.messages =
      [welcomeMessage 11] ∧
    (handleClearHistory "kb1" sampleIdleChatState true (.err "boom") 11).1.messages =
      sampleIdleChatState.messages ∧
    (handleClearHistory "kb1" sampleIdleChatState false .ok 11).2 = false := by
  have h := clear_history_atomic "kb1" sampleIdleChatState .ok "boom" 11
    (by decide) (by decide)
  exact ⟨h.1.1, h.2.1.1, h.2.2.2.2.2⟩

/-- C8 witness: a concrete failed JSON upload from an enabled state sets an
error banner without refetching. -/
theorem mutation_list_refetch_witness :
    uploadButtonDisabled sampleJsonState = false ∧
    (handleUpload sampleJsonState (.resp false none)).2.2 = false ∧
    (handleUpload sampleJsonState (.resp false none)).1.uploadMessage.map
      StatusMessage.isSuccess = some false := by
  have h := mutation_list_refetch sampleJsonState none none "boom" "boom"
    { error := none, deletingKbId := none } none "kb1" 500
  exact ⟨by decide, h.2.2.1, (h.2.2.2.2.1 (by decide)).1⟩

/-- Helper: closed form of the save payload: a payload is produced exactly
when a field changed, and it carries exactly the changed fields. -/
theorem handleSaveChanges_spec (c i : AgentConfigData) :
    handleSaveChanges c i =
      (if (c.system_prompt.isSome = true ∧ c.system_prompt ≠ i.system_prompt) ∨
          (c.max_iterations.isSome = true ∧
            c.max_iterations.join ≠ i.max_iterations.join)
       then some
        { system_prompt :=
            if c.system_prompt.isSome = true ∧ c.system_prompt ≠ i.system_prompt
            then c.system_prompt else none,
          max_iterations :=
            if c.max_iterations.isSome = true ∧
               c.max_iterations.join ≠ i.max_iterations.join
            then some (match c.max_iterations.join with
                       | some k => if 1 ≤ k then some k else none
                       | none => none)
            else none }
       else none) := by
  unfold handleSaveChanges
  dsimp only
  by_cases h1 : c.system_prompt.isSome = true ∧ c.system_prompt ≠ i.system_prompt <;>
    by_cases h2 : c.max_iterations.isSome = true ∧
      c.max_iterations.join ≠ i.max_iterations.join
  · have hne : c.system_prompt ≠ none := Option.ne_none_iff_isSome.mpr h1.1
    rw [if_pos h1, if_pos h2, if_pos (Or.inl h1)]
    rw [if_neg (fun hc => hne hc.1)]
  · have hne : c.system_prompt ≠ none := Option.ne_none_iff_isSome.mpr h1.1
    rw [if_pos h1, if_neg h2, if_pos (Or.inl h1)]
    rw [if_neg (fun hc => hne hc.1)]
  · rw [if_neg h1, if_pos h2, if_pos (Or.inr h2)]
    rw [if_neg (fun hc => Option.some_ne_none _ hc.2)]
  · rw [if_neg h1, if_neg h2, if_pos ⟨rfl, rfl⟩,
        if_neg (fun hc => hc.elim h1 h2)]

/-- C10: saving the agent configuration sends a partial update: the PUT
payload is empty (and no request is issued) exactly when neither
`system_prompt` nor `max_iterations` differs from the initially fetched
config; a payload carries each field exactly when it changed; and a changed
`max_iterations` that is not a number at least 1 is sent as null. -/
theorem config_save_partial_update :
    ∀ (c i : AgentConfigData) (p : AgentConfigPayload) (n : Int),
      (handleSaveChanges c i = none ↔
        ¬(c.system_prompt.isSome = true ∧ c.system_prompt ≠ i.system_prompt) ∧
        ¬(c.max_iterations.isSome = true ∧ c.max_iterations.join ≠ i.max_iterations.join)) ∧
      (handleSaveChanges c i = some p →
        (p.system_prompt =
          if c.system_prompt.isSome = true ∧ c.system_prompt ≠ i.system_prompt
          then c.system_prompt else none) ∧
        (p.max_iterations =
          if c.max_iterations.isSome = true ∧
             c.max_iterations.join ≠ i.max_iterations.join
          then some (match c.max_iterations.join with
                     | some k => if 1 ≤ k then some k else none
                     | none => none)
          else none)) ∧
      (handleSaveChanges c i = some p →
        c.max_iterations.isSome = true →
        c.max_iterations.join = some n →
        c.max_iterations.join ≠ i.max_iterations.join →
        n < 1 →
        p.max_iterations = some none) := by
  intro c i p n
  refine ⟨?_, ?_, ?_⟩
  · rw [handleSaveChanges_spec]
    split_ifs with h
    · constructor
      · intro hc
        exact absurd hc (by simp)
      · intro hc
        rcases h with h | h
        · exact (hc.1 h).elim
        · exact (hc.2 h).elim
    · exact ⟨fun _ => ⟨fun ha => h (Or.inl ha), fun hb => h (Or.inr hb)⟩,
             fun _ => rfl⟩
  · intro hp
    rw [handleSaveChanges_spec] at hp
    split_ifs at hp ⊢ <;>
      first
        | (injection hp with hpe
           subst hpe
           exact ⟨rfl, rfl⟩)
        | exact Option.noConfusion hp
  · intro hp hIsSome hJoin hNe hLt
    rw [handleSaveChanges_spec] at hp
    split_ifs at hp <;>
      first
        | exact Option.noConfusion hp
        | (injection hp with hpe
           subst hpe
           dsimp only
           rw [hJoin]
           simp [show ¬((1 : Int) ≤ n) from by omega])
        | tauto

/-- C10 witness: a concrete save where `system_prompt` is unchanged and
`max_iterations` changed to the invalid value 0, which is sent as null. -/
theorem config_save_partial_update_witness :
    handleSaveChanges sampleConfigCurrent sampleConfigInitial =
      some sampleConfigPayload ∧
    sampleConfigPayload.max_iterations = some none := by
  have h := config_save_partial_update sampleConfigCurrent sampleConfigInitial
    sampleConfigPayload 0
  refine ⟨by decide, ?_⟩
  exact h.2.2 (by decide) (by decide) (by decide) (by decide) (by decide)

end ChatwiseUI
